import Mathlib

/-!
Shallow embedding of the Plinth backend (`main_override.py`): password and
JWT utilities, the SQLite-backed user table as an explicit list of rows,
and the response builders that derive personalized payloads from the stored
onboarding mapping.  Library functions (SHA-256, JWT signing, JSON
serialization) are abstracted as function parameters; everything else is
translated directly from the source.
-/

namespace Plinth

/-- An HTTP error as raised by `HTTPException(status_code, detail)`. -/
structure HErr where
  status : Nat
  detail : String
deriving DecidableEq

/-- Python `s.split(sep, 1)` on character lists: split at the first
occurrence of `sep`, returning the part before and the part after, or
`none` when `sep` does not occur. -/
def splitFirstAux (sep : Char) : List Char → Option (List Char × List Char)
  | [] => none
  | c :: cs =>
    if c = sep then some ([], cs)
    else (splitFirstAux sep cs).map (fun p => (c :: p.1, p.2))

/-- String-level wrapper for `splitFirstAux`. -/
def splitFirst (sep : Char) (s : String) : Option (String × String) :=
  match splitFirstAux sep s.data with
  | some (a, b) => some (String.mk a, String.mk b)
  | none => none

/-- Python `needle in hay` on character lists. -/
def infixAux (needle : List Char) : List Char → Bool
  | [] => needle.isEmpty
  | c :: cs => needle.isPrefixOf (c :: cs) || infixAux needle cs

/-- Python `needle in hay` for strings. -/
def strContains (hay needle : String) : Bool :=
  infixAux needle.data hay.data

/-- Python `s.lower()` (ASCII-adequate model). -/
def lowerStr (s : String) : String :=
  String.mk (s.data.map Char.toLower)

/-- Python `s.startswith(pre)`. -/
def startsWithPy (s pre : String) : Bool :=
  pre.data.isPrefixOf s.data

/-- `hash_password`: the stored credential is `salt$digest` where the digest
is `H(salt ++ password)`.  The SHA-256 hexdigest is abstracted as `H`; the
random salt drawn from `secrets.token_hex(16)` is passed explicitly. -/
def hash_password (H : String → String) (salt password : String) : String :=
  salt ++ "$" ++ H (salt ++ password)

/-- `verify_password`: split the stored value at the first `$` into salt and
digest, recompute the digest of `salt ++ plain`, compare; return `false`
when the stored value has no separator (the `ValueError` branch). -/
def verify_password (H : String → String) (plain hashed : String) : Bool :=
  match splitFirst (Char.ofNat 36) hashed with
  | some (salt, h) => H (salt ++ plain) == h
  | none => false

/-- A decoded JWT payload: `{sub, exp, iat, type}`.  Time is modeled in
seconds as `Nat`; a missing `sub` claim is `none`. -/
structure Payload where
  sub : Option String
  exp : Nat
  iat : Nat
  type : String
deriving DecidableEq

/-- An encoded JWT: its payload together with the signature string that
`jwt.encode` computed over it. -/
structure SignedToken where
  payload : Payload
  sig : String
deriving DecidableEq

def JWT_EXPIRY_HOURS : Nat := 24
def REFRESH_TOKEN_EXPIRY_DAYS : Nat := 7

/-- The token-pair dictionary returned by `create_tokens`. -/
structure Tokens where
  access_token : SignedToken
  refresh_token : SignedToken
  token_type : String
  user_id : String
deriving DecidableEq

/-- `create_tokens`: issue an access payload (24 h expiry, type "access")
and a refresh payload (7 d expiry, type "refresh"), both signed with the
abstracted signing function and bound to `user_id`. -/
def create_tokens (sign : Payload → String) (now : Nat) (user_id : String) : Tokens :=
  let ap : Payload := ⟨some user_id, now + JWT_EXPIRY_HOURS * 3600, now, "access"⟩
  let rp : Payload := ⟨some user_id, now + REFRESH_TOKEN_EXPIRY_DAYS * 86400, now, "refresh"⟩
  ⟨⟨ap, sign ap⟩, ⟨rp, sign rp⟩, "bearer", user_id⟩

/-- `jose.jwt.decode`: reject a bad signature or an expired token (raising
`JWTError`, modeled as `Except Unit`), otherwise return the payload.  The
token type is not inspected here. -/
def jwt_decode (sign : Payload → String) (now : Nat) (t : SignedToken) :
    Except Unit Payload :=
  if t.sig = sign t.payload then
    if now < t.payload.exp then .ok t.payload else .error ()
  else .error ()

/-- `verify_token`: decode the token string (deserialization abstracted as
`parse`), 401 on `JWTError`, 401 on a missing or falsy `sub`, otherwise
return the subject. -/
def verify_token (parse : String → SignedToken) (sign : Payload → String)
    (now : Nat) (token : String) : Except HErr String :=
  match jwt_decode sign now (parse token) with
  | .error _ => .error ⟨401, "Invalid or expired token"⟩
  | .ok payload =>
    match payload.sub with
    | none => .error ⟨401, "Invalid token"⟩
    | some uid => if uid = "" then .error ⟨401, "Invalid token"⟩ else .ok uid

/-- `get_current_user`: require an `Authorization` header starting with
"Bearer ", split once on the first space, verify the remainder.  The
unreachable missing-space branch is modeled as a 500. -/
def get_current_user (parse : String → SignedToken) (sign : Payload → String)
    (now : Nat) (authorization : Option String) : Except HErr String :=
  match authorization with
  | none => .error ⟨401, "Missing authorization"⟩
  | some a =>
    if startsWithPy a "Bearer " then
      match splitFirst (Char.ofNat 32) a with
      | some (_, token) => verify_token parse sign now token
      | none => .error ⟨500, "IndexError"⟩
    else .error ⟨401, "Missing authorization"⟩

/-- `refresh_token` endpoint: verify the submitted token, then mint a fresh
pair for the same subject.  No check of the token `type` field occurs. -/
def refresh_token (parse : String → SignedToken) (sign : Payload → String)
    (now : Nat) (req_refresh_token : String) : Except HErr Tokens :=
  match verify_token parse sign now req_refresh_token with
  | .error e => .error e
  | .ok user_id => .ok (create_tokens sign now user_id)

/-- A stored onboarding value.  The observed schema uses strings
(`positioning_target`, `audience_description`, `voice_style`) and lists of
strings (`content_territories`, `core_ideas`), so values are modeled as one
of those two shapes. -/
inductive PyVal where
  | vstr : String → PyVal
  | vlist : List String → PyVal
deriving DecidableEq

/-- An onboarding mapping: a JSON object as an association list. -/
abbrev Ob := List (String × PyVal)

namespace PyVal

/-- Python truthiness: empty strings and empty lists are falsy. -/
def truthy : PyVal → Bool
  | vstr s => !(s == "")
  | vlist xs => !xs.isEmpty

/-- Python `len(v)`. -/
def len : PyVal → Nat
  | vstr s => s.length
  | vlist xs => xs.length

/-- Python slicing `v[:n]` (a string slice is a string, a list slice a
list). -/
def slice (n : Nat) : PyVal → PyVal
  | vstr s => vstr (s.take n)
  | vlist xs => vlist (xs.take n)

/-- Python iteration: iterating a string yields its one-character
substrings, iterating a list its elements. -/
def iter : PyVal → List String
  | vstr s => s.data.map (fun c => String.mk [c])
  | vlist xs => xs

/-- Python `v[0] if v else d` with a string default (indexing a nonempty
string yields its first character as a string). -/
def firstD (d : String) : PyVal → String
  | vstr s => if s == "" then d else s.take 1
  | vlist [] => d
  | vlist (x :: _) => x

/-- Python `v[1] if len(v) > 1 else d`. -/
def secondD (d : String) : PyVal → String
  | vstr s => if 1 < s.length then (s.drop 1).take 1 else d
  | vlist xs => match xs.get? 1 with
    | some y => y
    | none => d

/-- Python `v[0] if v else d` where the default is itself a value, as in
`first_topic = topics[0] if topics else positioning`. -/
def firstVal (d : PyVal) : PyVal → PyVal
  | vstr s => if s == "" then d else vstr (s.take 1)
  | vlist [] => d
  | vlist (x :: _) => vstr x

/-- Python `repr` of a string: wrapped in single quotes (code 39). -/
def reprStr (s : String) : String :=
  String.mk [Char.ofNat 39] ++ s ++ String.mk [Char.ofNat 39]

/-- Python `str(v)` as used by f-string interpolation. -/
def pyStr : PyVal → String
  | vstr s => s
  | vlist xs => "[" ++ String.intercalate ", " (xs.map reprStr) ++ "]"

end PyVal

/-- Python `ob.get(key, default)` over the association-list mapping. -/
def dget (ob : Ob) (key : String) (default : PyVal) : PyVal :=
  match ob.find? (fun kv => kv.1 == key) with
  | some kv => kv.2
  | none => default

/-- The `onboarding_flags` JSON object
`{completed_questionnaire, selected_tone, reviewed_brief}`. -/
structure Flags where
  completed_questionnaire : Bool
  selected_tone : Bool
  reviewed_brief : Bool
deriving DecidableEq

/-- A row of the `users` table.  The `onboarding_data` column holds the raw
JSON text (or NULL); `onboarding_flags` is modeled structurally since the
code only ever writes it. -/
structure UserRow where
  user_id : String
  email : String
  password_hash : String
  created_at : String
  onboarding_flags : Option Flags
  questionnaire_data : Option String
  tone_data : Option String
  onboarding_data : Option String
deriving DecidableEq

/-- `register` endpoint.  Inputs beyond the request: `H` the hash, `sign`
the JWT signer, `now`/`now_iso` the clock, `salt` and `uid` the values
drawn from `secrets.token_hex` and `uuid4`.  Returns the table after the
call together with the response. -/
def register (H : String → String) (sign : Payload → String) (now : Nat)
    (now_iso salt uid : String) (st : List UserRow) (email password : String) :
    List UserRow × Except HErr Tokens :=
  if st.any (fun r => r.email == email) then
    (st, .error ⟨400, "User already exists"⟩)
  else
    let password_hash := hash_password H salt password
    let row : UserRow :=
      ⟨uid, email, password_hash, now_iso, some ⟨false, false, false⟩, none, none, none⟩
    (st ++ [row], .ok (create_tokens sign now uid))

/-- `get_user_onboarding`: look up the user's row, return the parsed
onboarding mapping when the column is non-NULL, non-empty and parses
(`json.loads` abstracted as `loads`, `none` on `JSONDecodeError`), and
`none` otherwise.  The table is returned to make the read-only access
explicit. -/
def get_user_onboarding (loads : String → Option Ob) (st : List UserRow)
    (user_id : String) : Option Ob × List UserRow :=
  match st.find? (fun r => r.user_id == user_id) with
  | some row =>
    match row.onboarding_data with
    | some s => if s == "" then (none, st) else (loads s, st)
    | none => (none, st)
  | none => (none, st)

/-- The `{saved, onboarding_completed}` acknowledgement payload. -/
structure Ack where
  saved : Bool
  onboarding_completed : Bool
deriving DecidableEq

/-- The uniform `{ok, data}` envelope (the random `trace_id` is omitted). -/
structure Env (α : Type) where
  ok : Bool
  data : α
deriving DecidableEq

/-- `complete_onboarding` endpoint: 400 when the payload is absent or empty
(`if not data`), otherwise overwrite the user's `onboarding_data` with the
serialized payload (`json.dumps` abstracted as `dumps`) and reset the
flags.  Returns the table after the call together with the response. -/
def complete_onboarding (dumps : Ob → String) (st : List UserRow)
    (data : Option Ob) (user_id : String) :
    List UserRow × Except HErr (Env Ack) :=
  match data with
  | none => (st, .error ⟨400, "No calibration data provided"⟩)
  | some d =>
    if d.isEmpty then (st, .error ⟨400, "No calibration data provided"⟩)
    else
      (st.map (fun r =>
        if r.user_id == user_id then
          { r with onboarding_data := some (dumps d),
                   onboarding_flags := some ⟨true, true, false⟩ }
        else r),
       .ok ⟨true, ⟨true, true⟩⟩)

/-- Topic selection in `get_hub_today`:
`ob.get("content_territories", ob.get("core_ideas", []))`. -/
def hubTopics (m : Ob) : PyVal :=
  dget m "content_territories" (dget m "core_ideas" (.vlist []))

/-- Topic selection in `get_brief`, same expression as in `get_hub_today`. -/
def briefTopics (m : Ob) : PyVal :=
  dget m "content_territories" (dget m "core_ideas" (.vlist []))

/-- Topic selection in `get_strategy`: `ob.get("content_territories", [])`
with no `core_ideas` fallback. -/
def strategyTopics (m : Ob) : PyVal :=
  dget m "content_territories" (.vlist [])

/-- Topic selection in `coach_chat`: `ob.get("content_territories", [])`. -/
def coachTopics (m : Ob) : PyVal :=
  dget m "content_territories" (.vlist [])

/-- The `brief` object inside the hub/today payload. -/
structure HubBrief where
  topic : String
  angle : String
  hook : String
  supporting_claims : PyVal
  rationale : String
deriving DecidableEq

/-- The `strategy_snapshot` object inside the hub/today payload. -/
structure StrategySnapshot where
  positioning : PyVal
  recommended_focus : PyVal
  active_signals : List String
  territory_coverage : Nat
deriving DecidableEq

/-- The `memory_state` object inside the hub/today payload. -/
structure MemoryState where
  total_territories : Nat
  active_claims : Nat
  reinforcement_count : Nat
deriving DecidableEq

/-- The `engagement_summary` object inside the hub/today payload. -/
structure EngagementSummary where
  messages_today : Nat
  conversations_active : Nat
  voice_consistency : Nat
deriving DecidableEq

/-- The hub/today `data` payload. -/
structure HubToday where
  date : String
  personalized : Bool
  brief : HubBrief
  strategy_snapshot : StrategySnapshot
  memory_state : MemoryState
  engagement_summary : EngagementSummary
deriving DecidableEq

/-- The default hub/today payload for users who have not onboarded. -/
def hub_today_default (today : String) : HubToday :=
  ⟨today, false,
   ⟨"Complete your brand setup", "Get started",
    "Set up your brand identity to unlock personalized strategic briefs",
    .vlist [], "Complete onboarding to receive tailored daily briefs"⟩,
   ⟨.vstr "Not yet configured", .vlist ["Complete brand setup"], [], 0⟩,
   ⟨0, 0, 0⟩, ⟨0, 0, 0⟩⟩

/-- `get_hub_today` endpoint as a function of the onboarding lookup result
(`ob = get_user_onboarding(user_id)`); `today` stands for the current UTC
date string. -/
def get_hub_today (today : String) (ob : Option Ob) : Env HubToday :=
  match ob with
  | some m =>
    if m.isEmpty then ⟨true, hub_today_default today⟩
    else
      let positioning := dget m "positioning_target" (.vstr "your expertise")
      let topics := hubTopics m
      let audience := dget m "audience_description" (.vstr "your audience")
      let first_topic := topics.firstD "your core topic"
      ⟨true,
       ⟨today, true,
        ⟨first_topic,
         "Reinforce your positioning in " ++ positioning.pyStr,
         "Share your perspective on " ++ first_topic ++
           " — your audience needs this from you today",
         (dget m "core_ideas" (.vlist [])).slice 3,
         "This reinforces your authority in " ++ positioning.pyStr ++
           " for " ++ audience.pyStr⟩,
        ⟨positioning,
         if topics.truthy then topics.slice 3 else .vlist ["Define your territories"],
         ((if topics.truthy then topics.slice 2 else .vlist ["your positioning"]).iter).map
           (fun t => "Reinforce " ++ t),
         if topics.truthy then min (topics.len * 15) 100 else 0⟩,
        ⟨if topics.truthy then topics.len else 0,
         (dget m "core_ideas" (.vlist [])).len, 0⟩,
        ⟨0, 0, 0⟩⟩⟩
  | none => ⟨true, hub_today_default today⟩

/-- The hub/brief `data` payload, mirroring the response dictionary of
`get_brief`. -/
structure BriefOut where
  topic : PyVal
  subtopic : PyVal
  angle : String
  hook : String
  supporting_claims : PyVal
  rationale : String
  key_messages : PyVal
  created_at : String
  expires_at : String
deriving DecidableEq

/-- The default hub/brief payload for users who have not onboarded. -/
def brief_default (created expires : String) : BriefOut :=
  ⟨.vstr "Set up your brand", .vstr "Getting started", "Complete onboarding",
   "Configure your brand identity to unlock personalized briefs",
   .vlist [], "Complete the brand setup to receive strategic daily briefs",
   .vlist ["Complete your brand setup to get started"], created, expires⟩

/-- `get_brief` endpoint as a function of the onboarding lookup result. -/
def get_brief (created expires : String) (ob : Option Ob) : Env BriefOut :=
  match ob with
  | some m =>
    if m.isEmpty then ⟨true, brief_default created expires⟩
    else
      let positioning := dget m "positioning_target" (.vstr "your expertise")
      let topics := briefTopics m
      let first_topic := topics.firstVal positioning
      ⟨true,
       ⟨first_topic, positioning,
        "Strengthen your authority in " ++ first_topic.pyStr,
        "Share your unique perspective on " ++ first_topic.pyStr ++
          " to reinforce your positioning",
        dget m "core_ideas" (.vlist []),
        "Publishing on " ++ first_topic.pyStr ++
          " reinforces your positioning in " ++ positioning.pyStr,
        (dget m "core_ideas" (.vlist [])).slice 3, created, expires⟩⟩
  | none => ⟨true, brief_default created expires⟩

/-- The strategy `data` payload.  The float-valued `territory_allocation`
dictionary (Python `round(100 / max(len(topics), 1))` on floats) is outside
this development's scope and is omitted from the model. -/
structure StrategyOut where
  positioning : PyVal
  target_audience : PyVal
  recommended_focus : PyVal
  active_signals : List String
  messaging_pillars : PyVal
  created_at : String
deriving DecidableEq

/-- The default strategy payload for users who have not onboarded. -/
def strategy_default (created : String) : StrategyOut :=
  ⟨.vstr "Not yet configured", .vstr "Complete brand setup", .vlist [],
   [], .vlist [], created⟩

/-- `get_strategy` endpoint as a function of the onboarding lookup result. -/
def get_strategy (created : String) (ob : Option Ob) : Env StrategyOut :=
  match ob with
  | some m =>
    if m.isEmpty then ⟨true, strategy_default created⟩
    else
      let positioning := dget m "positioning_target" (.vstr "your expertise")
      let audience := dget m "audience_description" (.vstr "your audience")
      let topics := strategyTopics m
      let core_ideas := dget m "core_ideas" (.vlist [])
      ⟨true,
       ⟨positioning, audience,
        if topics.truthy then topics.slice 3 else .vlist [],
        ((core_ideas.slice 4).iter).map (fun c => "Reinforce: " ++ c),
        core_ideas.slice 3, created⟩⟩
  | none => ⟨true, strategy_default created⟩

/-- The coach-chat `data` payload. -/
structure ChatOut where
  message : String
  suggestions : List String
  context : Ob
deriving DecidableEq

/-- The fixed suggestion list attached to every coach-chat response. -/
def chat_suggestions : List String :=
  ["Review your brief", "Check memory coverage", "Refine strategy focus"]

/-- `coach_chat` endpoint: lower-case the message, pick the reply by the
ordered keyword cascade, attach the fixed suggestions and echo the request
context (`req.context or {}`). -/
def coach_chat (ob : Option Ob) (message : String) (context : Option Ob) :
    Env ChatOut :=
  let msg := lowerStr message
  let response_text :=
    match ob with
    | some m =>
      if m.isEmpty then
        "Welcome to Plinth! Complete your brand setup first to unlock personalized coaching. Head to Setup to configure your brand identity."
      else
        let positioning := dget m "positioning_target" (.vstr "your expertise")
        let topics := coachTopics m
        let core_ideas := dget m "core_ideas" (.vlist [])
        if strContains msg "brief" then
          "Your current focus is on reinforcing your positioning in " ++
            positioning.pyStr ++ ". Would you like to explore specific angles?"
        else if strContains msg "memory" || strContains msg "reinforce" then
          "You have " ++ toString topics.len ++ " territories and " ++
            toString core_ideas.len ++
            " core ideas configured. Let\x27s plan your reinforcement strategy."
        else if strContains msg "strategy" then
          "Your positioning as an authority in " ++ positioning.pyStr ++
            " is your strategic foundation. Which territory would you like to strengthen first?"
        else
          let topic_list :=
            if topics.truthy then String.intercalate ", " ((topics.slice 3).iter)
            else "your key topics"
          "I\x27m here to help you build authority in " ++ positioning.pyStr ++
            ". Your territories include " ++ topic_list ++
            ". What would you like to work on?"
    | none =>
      "Welcome to Plinth! Complete your brand setup first to unlock personalized coaching. Head to Setup to configure your brand identity."
  ⟨true, ⟨response_text, chat_suggestions, context.getD []⟩⟩

/-- String concatenation acts as list concatenation on the underlying
character data. -/
theorem data_append (a b : String) : (a ++ b).data = a.data ++ b.data := rfl

/-- Characterization of a successful first-occurrence split: the input
decomposes around the separator and the prefix is separator-free. -/
theorem splitFirstAux_some_iff (sep : Char) :
    ∀ (l a b : List Char),
      splitFirstAux sep l = some (a, b) ↔ l = a ++ sep :: b ∧ sep ∉ a := by
  intro l
  induction l with
  | nil =>
    intro a b
    simp [splitFirstAux, eq_comm]
  | cons c cs ih =>
    intro a b
    by_cases hc : c = sep
    · subst hc
      simp only [splitFirstAux, if_pos rfl, Option.some.injEq, Prod.mk.injEq]
      constructor
      · rintro ⟨rfl, rfl⟩
        simp
      · rintro ⟨heq, hmem⟩
        cases a with
        | nil =>
          simp only [List.nil_append] at heq
          injection heq with h1 h2
          simp [h2]
        | cons x xs =>
          simp only [List.cons_append] at heq
          injection heq with h1 h2
          exact absurd (by rw [h1]; exact List.mem_cons_self x xs) hmem
    · simp only [splitFirstAux, if_neg hc, Option.map_eq_some', Prod.mk.injEq]
      constructor
      · rintro ⟨⟨a', b'⟩, hsome, rfl, rfl⟩
        obtain ⟨hcs, hmem⟩ := (ih a' b').mp hsome
        subst hcs
        refine ⟨by simp, ?_⟩
        intro hm
        rcases List.mem_cons.mp hm with h | h
        · exact hc h.symm
        · exact hmem h
      · rintro ⟨heq, hmem⟩
        cases a with
        | nil =>
          simp only [List.nil_append] at heq
          injection heq with h1 h2
          exact absurd h1 hc
        | cons x xs =>
          simp only [List.cons_append] at heq
          injection heq with h1 h2
          refine ⟨(xs, b), (ih xs b).mpr ⟨h2, ?_⟩, ?_, rfl⟩
          · intro hm
            exact hmem (List.mem_cons_of_mem _ hm)
          · rw [h1]

/-- A first-occurrence split fails exactly when the separator is absent. -/
theorem splitFirstAux_none_iff (sep : Char) :
    ∀ l : List Char, splitFirstAux sep l = none ↔ sep ∉ l := by
  intro l
  induction l with
  | nil => simp [splitFirstAux]
  | cons c cs ih =>
    by_cases hc : c = sep
    · subst hc
      simp [splitFirstAux]
    · simp [splitFirstAux, if_neg hc, Option.map_eq_none', ih, Ne.symm hc, hc]

/-- C5: password verification is total and fails closed.  It returns `true`
exactly when the stored value splits at its first `$` (character 36) into a
salt and a digest with the digest equal to the recomputed hash of
`salt ++ candidate`; for any stored value without a separator it returns
`false` instead of raising. -/
theorem verify_password_total_fail_closed (H : String → String)
    (plain hashed : String) :
    (verify_password H plain hashed = true ↔
       ∃ salt digest : String,
         hashed = salt ++ "$" ++ digest ∧ Char.ofNat 36 ∉ salt.data ∧
           H (salt ++ plain) = digest)
    ∧ (Char.ofNat 36 ∉ hashed.data → verify_password H plain hashed = false) := by
  have hdollar : ("$" : String).data = [Char.ofNat 36] := rfl
  constructor
  · cases h : splitFirstAux (Char.ofNat 36) hashed.data with
    | none =>
      have hmem : Char.ofNat 36 ∉ hashed.data := (splitFirstAux_none_iff _ _).mp h
      unfold verify_password splitFirst
      simp only [h]
      constructor
      · intro hh
        cases hh
      · rintro ⟨salt, digest, heq, _, _⟩
        exfalso
        apply hmem
        rw [heq, data_append, data_append, hdollar, List.append_assoc]
        exact List.mem_append_right _ (List.mem_append_left _ (List.mem_cons_self _ _))
    | some p =>
      obtain ⟨x, y⟩ := p
      obtain ⟨hdec, hsep⟩ := (splitFirstAux_some_iff (Char.ofNat 36) hashed.data x y).mp h
      unfold verify_password splitFirst
      simp only [h, beq_iff_eq]
      constructor
      · intro hH
        refine ⟨String.mk x, String.mk y, ?_, hsep, hH⟩
        apply String.ext
        rw [hdec, data_append, data_append, hdollar, List.append_assoc]
        rfl
      · rintro ⟨salt, digest, heq, hsep2, hH⟩
        have hdec2 : hashed.data = salt.data ++ Char.ofNat 36 :: digest.data := by
          rw [heq, data_append, data_append, hdollar, List.append_assoc]
          rfl
        have h2 := (splitFirstAux_some_iff (Char.ofNat 36) hashed.data salt.data
          digest.data).mpr ⟨hdec2, hsep2⟩
        rw [h] at h2
        injection h2 with h3
        injection h3 with h4 h5
        have hsalt : String.mk x = salt := by rw [h4]
        have hdig : String.mk y = digest := by rw [h5]
        rw [hsalt, hdig]
        exact hH
  · intro hno
    unfold verify_password splitFirst
    simp only [(splitFirstAux_none_iff (Char.ofNat 36) hashed.data).mpr hno]

/-- Witness for C5 at a concrete stored value: with the identity in place
of the digest function, `sa$sapw` verifies the candidate `pw`, and a
separator-free stored value is rejected. -/
theorem verify_password_witness :
    verify_password (fun s => s) "pw" "sa$sapw" = true
    ∧ verify_password (fun s => s) "pw" "nodollar" = false := by
  constructor
  · exact (verify_password_total_fail_closed (fun s => s) "pw" "sa$sapw").1.mpr
      ⟨"sa", "sapw", by decide, by decide, rfl⟩
  · exact (verify_password_total_fail_closed (fun s => s) "pw" "nodollar").2
      (by decide)

/-- The onboarding lookup performs no write: the table after the call is
the table before it. -/
theorem get_user_onboarding_preserves_state (loads : String → Option Ob)
    (st : List UserRow) (user_id : String) :
    (get_user_onboarding loads st user_id).2 = st := by
  unfold get_user_onboarding
  split
  · split
    · split
      · rfl
      · rfl
    · rfl
  · rfl

/-- C8: `getOnboarding` is idempotent: run twice with no intervening write
it returns the same result, and it never mutates the table. -/
theorem get_user_onboarding_idempotent (loads : String → Option Ob)
    (st : List UserRow) (user_id : String) :
    (get_user_onboarding loads (get_user_onboarding loads st user_id).2 user_id).1
        = (get_user_onboarding loads st user_id).1
    ∧ (get_user_onboarding loads (get_user_onboarding loads st user_id).2 user_id).2
        = st := by
  rw [get_user_onboarding_preserves_state]
  exact ⟨rfl, get_user_onboarding_preserves_state loads st user_id⟩

/-- C6: `getOnboarding` is a pure lookup returning an absent result when
the user row is missing, when onboarding was never completed (NULL or
empty column), and when the stored JSON is corrupt (`loads` fails); it
never signals an error and never writes. -/
theorem get_user_onboarding_absent (loads : String → Option Ob)
    (st : List UserRow) (user_id : String) :
    (st.find? (fun r => r.user_id == user_id) = none →
        (get_user_onboarding loads st user_id).1 = none)
    ∧ (∀ row, st.find? (fun r => r.user_id == user_id) = some row →
        (row.onboarding_data = none ∨ row.onboarding_data = some "") →
        (get_user_onboarding loads st user_id).1 = none)
    ∧ (∀ row s, st.find? (fun r => r.user_id == user_id) = some row →
        row.onboarding_data = some s → loads s = none →
        (get_user_onboarding loads st user_id).1 = none)
    ∧ (get_user_onboarding loads st user_id).2 = st := by
  refine ⟨?_, ?_, ?_, get_user_onboarding_preserves_state loads st user_id⟩
  · intro h
    unfold get_user_onboarding
    simp [h]
  · intro row hrow hdata
    unfold get_user_onboarding
    rcases hdata with h | h
    · simp [hrow, h]
    · simp [hrow, h]
  · intro row s hrow hdata hloads
    unfold get_user_onboarding
    simp only [hrow, hdata]
    by_cases hs : s == ""
    · simp [hs]
    · simp [hs, hloads]

/-- Witness for C6: a row whose stored onboarding JSON fails to parse is
reported as absent, and so is a row whose column is NULL. -/
theorem get_user_onboarding_absent_witness :
    (get_user_onboarding (fun _ => none)
        [⟨"u1", "e", "ph", "t", none, none, none, some "corrupt"⟩] "u1").1 = none
    ∧ (get_user_onboarding (fun _ => none)
        [⟨"u2", "e", "ph", "t", none, none, none, none⟩] "u2").1 = none := by
  constructor
  · exact (get_user_onboarding_absent (fun _ => none)
      [⟨"u1", "e", "ph", "t", none, none, none, some "corrupt"⟩] "u1").2.2.1
      ⟨"u1", "e", "ph", "t", none, none, none, some "corrupt"⟩ "corrupt"
      (by decide) rfl rfl
  · exact (get_user_onboarding_absent (fun _ => none)
      [⟨"u2", "e", "ph", "t", none, none, none, none⟩] "u2").2.1
      ⟨"u2", "e", "ph", "t", none, none, none, none⟩ (by decide) (Or.inl rfl)

/-- Every hub/today response is wrapped in a success envelope. -/
theorem get_hub_today_ok (today : String) (ob : Option Ob) :
    (get_hub_today today ob).ok = true := by
  unfold get_hub_today
  cases ob with
  | none => rfl
  | some m => by_cases h : m.isEmpty <;> simp [h]

/-- Every hub/brief response is wrapped in a success envelope. -/
theorem get_brief_ok (created expires : String) (ob : Option Ob) :
    (get_brief created expires ob).ok = true := by
  unfold get_brief
  cases ob with
  | none => rfl
  | some m => by_cases h : m.isEmpty <;> simp [h]

/-- Every strategy response is wrapped in a success envelope. -/
theorem get_strategy_ok (created : String) (ob : Option Ob) :
    (get_strategy created ob).ok = true := by
  unfold get_strategy
  cases ob with
  | none => rfl
  | some m => by_cases h : m.isEmpty <;> simp [h]

/-- C10: in the personalized hub/today payload, `territory_coverage` is
`min(15 * len(topics), 100)` for a truthy topic sequence and `0`
otherwise, hence always at most 100 (and at least 0, being a `Nat`). -/
theorem hub_today_territory_coverage_bounds (today : String) (m : Ob)
    (hm : m ≠ []) :
    ((get_hub_today today (some m)).data.strategy_snapshot.territory_coverage
        = if (hubTopics m).truthy then min ((hubTopics m).len * 15) 100 else 0)
    ∧ (get_hub_today today (some m)).data.strategy_snapshot.territory_coverage
        ≤ 100 := by
  have hne : m.isEmpty = false := by
    cases m with
    | nil => exact absurd rfl hm
    | cons a t => rfl
  have hcov : (get_hub_today today (some m)).data.strategy_snapshot.territory_coverage
      = if (hubTopics m).truthy then min ((hubTopics m).len * 15) 100 else 0 := by
    simp [get_hub_today, hne]
  refine ⟨hcov, ?_⟩
  rw [hcov]
  by_cases ht : (hubTopics m).truthy
  · simp only [ht, if_true]
    exact Nat.min_le_right _ _
  · simp [ht]

/-- Witness for C10 on a mapping with two territories: the coverage is the
stated conditional and is bounded by 100. -/
theorem hub_today_territory_coverage_witness :
    ((get_hub_today "d" (some [("content_territories", PyVal.vlist ["A", "B"])])).data.strategy_snapshot.territory_coverage
        = if (hubTopics [("content_territories", PyVal.vlist ["A", "B"])]).truthy
          then min ((hubTopics [("content_territories", PyVal.vlist ["A", "B"])]).len * 15) 100
          else 0)
    ∧ (get_hub_today "d" (some [("content_territories", PyVal.vlist ["A", "B"])])).data.strategy_snapshot.territory_coverage
        ≤ 100 :=
  hub_today_territory_coverage_bounds "d" [("content_territories", PyVal.vlist ["A", "B"])]
    (by decide)

/-- Counterexample for C2: on the mapping `{core_ideas: ["X"]}` (no
`content_territories`), hub/today falls back to `core_ideas` and
recommends `["X"]`, but the strategy builder does not: its recommended
focus is the empty sequence, not the `core_ideas` fallback. -/
theorem strategy_lacks_core_ideas_fallback :
    (get_strategy "t" (some [("core_ideas", PyVal.vlist ["X"])])).data.recommended_focus
        = PyVal.vlist []
    ∧ (get_hub_today "t" (some [("core_ideas", PyVal.vlist ["X"])])).data.strategy_snapshot.recommended_focus
        = PyVal.vlist ["X"]
    ∧ dget [("core_ideas", PyVal.vlist ["X"])] "core_ideas" (PyVal.vlist [])
        = PyVal.vlist ["X"] := by
  refine ⟨?_, ?_, ?_⟩ <;> decide

/-- C2 (amended): when `content_territories` is absent, the hub/today and
hub/brief builders select `core_ideas` as the topic sequence (the empty
sequence when that too is absent), while the strategy builder selects the
empty sequence directly without consulting `core_ideas`; in every case the
builders return a success envelope. -/
theorem builders_topic_fallback (m : Ob) (today created expires : String)
    (hct : m.find? (fun kv => kv.1 == "content_territories") = none) :
    hubTopics m = dget m "core_ideas" (.vlist [])
    ∧ briefTopics m = dget m "core_ideas" (.vlist [])
    ∧ strategyTopics m = .vlist []
    ∧ (m.find? (fun kv => kv.1 == "core_ideas") = none →
        hubTopics m = .vlist [] ∧ briefTopics m = .vlist [])
    ∧ (get_hub_today today (some m)).ok = true
    ∧ (get_brief created expires (some m)).ok = true
    ∧ (get_strategy created (some m)).ok = true := by
  have h1 : hubTopics m = dget m "core_ideas" (.vlist []) := by
    unfold hubTopics dget
    rw [hct]
  have h2 : briefTopics m = dget m "core_ideas" (.vlist []) := by
    unfold briefTopics dget
    rw [hct]
  have h3 : strategyTopics m = .vlist [] := by
    unfold strategyTopics dget
    rw [hct]
  refine ⟨h1, h2, h3, ?_, get_hub_today_ok today (some m),
    get_brief_ok created expires (some m), get_strategy_ok created (some m)⟩
  intro hci
  constructor
  · rw [h1]
    unfold dget
    rw [hci]
  · rw [h2]
    unfold dget
    rw [hci]

/-- Witness for the amended C2 on a mapping with neither key: all three
selections are the empty sequence and all three builders succeed. -/
theorem builders_topic_fallback_witness :
    hubTopics [("audience_description", PyVal.vstr "a")]
        = dget [("audience_description", PyVal.vstr "a")] "core_ideas" (.vlist [])
    ∧ briefTopics [("audience_description", PyVal.vstr "a")]
        = dget [("audience_description", PyVal.vstr "a")] "core_ideas" (.vlist [])
    ∧ strategyTopics [("audience_description", PyVal.vstr "a")] = .vlist []
    ∧ ([("audience_description", PyVal.vstr "a")].find?
          (fun kv => kv.1 == "core_ideas") = none →
        hubTopics [("audience_description", PyVal.vstr "a")] = .vlist []
        ∧ briefTopics [("audience_description", PyVal.vstr "a")] = .vlist [])
    ∧ (get_hub_today "t" (some [("audience_description", PyVal.vstr "a")])).ok = true
    ∧ (get_brief "c" "e" (some [("audience_description", PyVal.vstr "a")])).ok = true
    ∧ (get_strategy "c" (some [("audience_description", PyVal.vstr "a")])).ok = true :=
  builders_topic_fallback [("audience_description", PyVal.vstr "a")] "t" "c" "e"
    (by decide)

/-- C4: `completeOnboarding` rejects an absent or empty payload with a
400 and leaves the table untouched; any non-empty payload is accepted
without shape validation, the user row\x27s `onboarding_data` is overwritten
wholesale with the serialized payload, its flags become
`{completed_questionnaire: true, selected_tone: true, reviewed_brief:
false}`, and every other row is unchanged. -/
theorem complete_onboarding_spec (dumps : Ob → String) (st : List UserRow)
    (user_id : String) :
    (complete_onboarding dumps st none user_id
        = (st, .error ⟨400, "No calibration data provided"⟩))
    ∧ (complete_onboarding dumps st (some []) user_id
        = (st, .error ⟨400, "No calibration data provided"⟩))
    ∧ (∀ d : Ob, d ≠ [] →
        (complete_onboarding dumps st (some d) user_id).2 = .ok ⟨true, ⟨true, true⟩⟩
        ∧ ∀ r ∈ (complete_onboarding dumps st (some d) user_id).1,
            (r.user_id = user_id →
              r.onboarding_data = some (dumps d)
              ∧ r.onboarding_flags = some ⟨true, true, false⟩)
            ∧ (r.user_id ≠ user_id → r ∈ st)) := by
  refine ⟨rfl, rfl, ?_⟩
  intro d hd
  have hne : d.isEmpty = false := by
    cases d with
    | nil => exact absurd rfl hd
    | cons a t => rfl
  constructor
  · simp [complete_onboarding, hne]
  · intro r hr
    simp only [complete_onboarding, hne, Bool.false_eq_true, if_false] at hr
    obtain ⟨s, hs, rfl⟩ := List.mem_map.mp hr
    by_cases h : s.user_id == user_id
    · refine ⟨fun _ => ?_, fun hne2 => ?_⟩
      · simp [h]
      · apply absurd _ hne2
        simp only [h, if_true]
        exact eq_of_beq h
    · refine ⟨fun heq => ?_, fun _ => ?_⟩
      · exfalso
        apply h
        simp only [h, if_false] at heq
        exact beq_iff_eq.mpr heq
      · simpa [h] using hs

/-- Witness for C4: an empty payload errors without touching the one-row
table, and a one-key payload is stored verbatim with the updated flags. -/
theorem complete_onboarding_witness :
    (complete_onboarding (fun _ => "J")
        [⟨"u1", "e", "ph", "t", none, none, none, none⟩] none "u1"
      = ([⟨"u1", "e", "ph", "t", none, none, none, none⟩],
         .error ⟨400, "No calibration data provided"⟩))
    ∧ (complete_onboarding (fun _ => "J")
        [⟨"u1", "e", "ph", "t", none, none, none, none⟩]
        (some [("k", PyVal.vstr "v")]) "u1").2 = .ok ⟨true, ⟨true, true⟩⟩ := by
  constructor
  · exact (complete_onboarding_spec (fun _ => "J")
      [⟨"u1", "e", "ph", "t", none, none, none, none⟩] "u1").1
  · exact ((complete_onboarding_spec (fun _ => "J")
      [⟨"u1", "e", "ph", "t", none, none, none, none⟩] "u1").2.2
      [("k", PyVal.vstr "v")] (by decide)).1

/-- C3: registering an email that already has a row fails with the
duplicate-user error and leaves the table unchanged; registering a fresh
email appends exactly one row carrying the supplied fresh identifier, the
salted digest `salt$H(salt ++ password)`, the all-false flag set and no
onboarding data, and returns a token pair for that identifier. -/
theorem register_conflict_unique (H : String → String) (sign : Payload → String)
    (now : Nat) (now_iso salt uid : String) (st : List UserRow)
    (email password : String) :
    ((∃ r ∈ st, r.email = email) →
        register H sign now now_iso salt uid st email password
          = (st, .error ⟨400, "User already exists"⟩))
    ∧ ((∀ r ∈ st, r.email ≠ email) →
        register H sign now now_iso salt uid st email password
          = (st ++ [⟨uid, email, salt ++ "$" ++ H (salt ++ password), now_iso,
                     some ⟨false, false, false⟩, none, none, none⟩],
             .ok (create_tokens sign now uid))) := by
  constructor
  · rintro ⟨r, hr, he⟩
    have hany : st.any (fun r => r.email == email) = true :=
      List.any_eq_true.mpr ⟨r, hr, by simp [he]⟩
    simp [register, hany]
  · intro h
    have hany : st.any (fun r => r.email == email) = false := by
      simp only [List.any_eq_false]
      intro r hr
      simp [h r hr]
    simp [register, hany, hash_password]

/-- Witness for C3: a duplicate email is rejected on a one-row table and a
fresh email appends the expected row to the empty table. -/
theorem register_witness :
    register (fun s => s) (fun _ => "") 0 "t0" "sa" "u2"
        [⟨"u1", "e", "ph", "t", none, none, none, none⟩] "e" "pw"
      = ([⟨"u1", "e", "ph", "t", none, none, none, none⟩],
         .error ⟨400, "User already exists"⟩)
    ∧ register (fun s => s) (fun _ => "") 0 "t0" "sa" "u2" [] "e" "pw"
      = ([⟨"u2", "e", "sa" ++ "$" ++ (fun s : String => s) ("sa" ++ "pw"), "t0",
          some ⟨false, false, false⟩, none, none, none⟩],
         .ok (create_tokens (fun _ => "") 0 "u2")) := by
  constructor
  · exact (register_conflict_unique (fun s => s) (fun _ => "") 0 "t0" "sa" "u2"
      [⟨"u1", "e", "ph", "t", none, none, none, none⟩] "e" "pw").1
      ⟨⟨"u1", "e", "ph", "t", none, none, none, none⟩, by simp, rfl⟩
  · exact (register_conflict_unique (fun s => s) (fun _ => "") 0 "t0" "sa" "u2"
      [] "e" "pw").2 (by simp)

/-- Splitting a "Bearer "-prefixed header once on the first space (code 32)
yields exactly the remainder of the header. -/
theorem splitFirst_bearer (t : String) :
    splitFirst (Char.ofNat 32) ("Bearer " ++ t) = some ("Bearer", t) := rfl

/-- A "Bearer "-prefixed header passes the prefix check. -/
theorem startsWithPy_bearer (t : String) :
    startsWithPy ("Bearer " ++ t) "Bearer " = true := by
  unfold startsWithPy
  rw [List.isPrefixOf_iff_prefix]
  exact ⟨t.data, rfl⟩

/-- C7: for an onboarded user, the coach reply is selected by matching the
lower-cased message against the ordered substrings "brief", then "memory"
or "reinforce", then "strategy", with a default reply otherwise — the
first match wins — and every response is a success envelope carrying the
same fixed suggestion list. -/
theorem coach_chat_keyword_cascade (m : Ob) (message : String)
    (context : Option Ob) (hm : m ≠ []) :
    ((coach_chat (some m) message context).ok = true)
    ∧ ((coach_chat (some m) message context).data.suggestions = chat_suggestions)
    ∧ (strContains (lowerStr message) "brief" = true →
        (coach_chat (some m) message context).data.message =
          "Your current focus is on reinforcing your positioning in " ++
            (dget m "positioning_target" (.vstr "your expertise")).pyStr ++
            ". Would you like to explore specific angles?")
    ∧ (strContains (lowerStr message) "brief" = false →
        (strContains (lowerStr message) "memory" = true
          ∨ strContains (lowerStr message) "reinforce" = true) →
        (coach_chat (some m) message context).data.message =
          "You have " ++ toString (coachTopics m).len ++ " territories and " ++
            toString (dget m "core_ideas" (.vlist [])).len ++
            " core ideas configured. Let\x27s plan your reinforcement strategy.")
    ∧ (strContains (lowerStr message) "brief" = false →
        strContains (lowerStr message) "memory" = false →
        strContains (lowerStr message) "reinforce" = false →
        strContains (lowerStr message) "strategy" = true →
        (coach_chat (some m) message context).data.message =
          "Your positioning as an authority in " ++
            (dget m "positioning_target" (.vstr "your expertise")).pyStr ++
            " is your strategic foundation. Which territory would you like to strengthen first?")
    ∧ (strContains (lowerStr message) "brief" = false →
        strContains (lowerStr message) "memory" = false →
        strContains (lowerStr message) "reinforce" = false →
        strContains (lowerStr message) "strategy" = false →
        (coach_chat (some m) message context).data.message =
          "I\x27m here to help you build authority in " ++
            (dget m "positioning_target" (.vstr "your expertise")).pyStr ++
            ". Your territories include " ++
            (if (coachTopics m).truthy
              then String.intercalate ", " (((coachTopics m).slice 3).iter)
              else "your key topics") ++
            ". What would you like to work on?") := by
  have hne : m.isEmpty = false := by
    cases m with
    | nil => exact absurd rfl hm
    | cons a t => rfl
  refine ⟨rfl, rfl, ?_, ?_, ?_, ?_⟩
  · intro h1
    simp [coach_chat, hne, h1]
  · intro h1 h2
    rcases h2 with h2 | h2 <;> simp [coach_chat, hne, h1, h2]
  · intro h1 h2 h3 h4
    simp [coach_chat, hne, h1, h2, h3, h4]
  · intro h1 h2 h3 h4
    simp [coach_chat, hne, h1, h2, h3, h4]

/-- Witness for C7: a message containing "Brief" (matched after
lower-casing) draws the brief reply with the stored positioning
interpolated, and the fixed suggestions are attached. -/
theorem coach_chat_witness :
    (coach_chat (some [("positioning_target", PyVal.vstr "AI")])
        "Brief please" none).data.message
      = "Your current focus is on reinforcing your positioning in AI. Would you like to explore specific angles?"
    ∧ (coach_chat (some [("positioning_target", PyVal.vstr "AI")])
        "Brief please" none).data.suggestions = chat_suggestions := by
  have h := coach_chat_keyword_cascade [("positioning_target", PyVal.vstr "AI")]
    "Brief please" none (by decide)
  refine ⟨?_, h.2.1⟩
  rw [h.2.2.1 (by decide)]
  rfl

/-- C9: bearer authentication accepts every correctly signed, unexpired
token whose `sub` claim is a non-empty subject, with no condition on the
token `type`; in particular a refresh-type token in the Authorization
header is accepted. -/
theorem bearer_auth_ignores_token_type (parse : String → SignedToken)
    (sign : Payload → String) (now : Nat) (p : Payload) (uid tok : String)
    (hp : parse tok = ⟨p, sign p⟩) (hexp : now < p.exp)
    (hsub : p.sub = some uid) (huid : uid ≠ "") :
    verify_token parse sign now tok = .ok uid
    ∧ get_current_user parse sign now (some ("Bearer " ++ tok)) = .ok uid := by
  have hv : verify_token parse sign now tok = .ok uid := by
    unfold verify_token jwt_decode
    rw [hp]
    simp [hexp, hsub, huid]
  refine ⟨hv, ?_⟩
  simp only [get_current_user, startsWithPy_bearer, if_true, splitFirst_bearer]
  exact hv

/-- Witness for C9: a signed, unexpired refresh-type token is accepted
both by `verify_token` and through the Authorization header. -/
theorem bearer_auth_ignores_token_type_witness :
    verify_token (fun _ => ⟨⟨some "u1", 10, 0, "refresh"⟩, ""⟩) (fun _ => "") 5 "t"
        = .ok "u1"
    ∧ get_current_user (fun _ => ⟨⟨some "u1", 10, 0, "refresh"⟩, ""⟩) (fun _ => "")
        5 (some ("Bearer " ++ "t")) = .ok "u1" :=
  bearer_auth_ignores_token_type (fun _ => ⟨⟨some "u1", 10, 0, "refresh"⟩, ""⟩)
    (fun _ => "") 5 ⟨some "u1", 10, 0, "refresh"⟩ "u1" "t" rfl (by decide) rfl
    (by decide)

/-- C1 exhibit: the refresh endpoint accepts a freshly minted ACCESS-type
token (valid signature, unexpired) and issues a new token pair for its
subject, instead of rejecting it with a 401 as the specification
requires. -/
theorem refresh_accepts_access_type_token :
    (create_tokens (fun _ => "s") 0 "u1").access_token.payload.type = "access"
    ∧ refresh_token (fun _ => (create_tokens (fun _ => "s") 0 "u1").access_token)
        (fun _ => "s") 5 "tok"
        = .ok (create_tokens (fun _ => "s") 5 "u1") :=
  ⟨rfl, rfl⟩

end Plinth
